import Mathlib

/-!
Shallow embedding of the decision kernel of the POLYMARKET_TRADE repository:
the lock detector, guardrail evaluator, leader/flip tracker, OBI engine,
regime tracker, score trendiness, and the per-asset worker state machine.
Monetary quantities and prices are embedded as rationals; timestamps as
naturals (milliseconds).  External effects (HTTP fetches, the simulated
exchange, logging) appear as explicit oracle parameters where their results
feed back into the embedded state.
-/

namespace PolymarketTrade

/-- Binary market outcome side, the JS strings YES and NO. -/
inductive Side where
  | YES
  | NO
deriving DecidableEq, Repr

/-- Position record { yesShares, yesCost, noShares, noCost } held per asset per window. -/
structure Position where
  yesShares : ℚ
  yesCost : ℚ
  noShares : ℚ
  noCost : ℚ
deriving DecidableEq, Repr

/-- Mutable fields of the JS class LockDetector. -/
structure LockDetector where
  locked : Bool
  lockTimestamp : Option ℕ
  lockDetails : Option (ℚ × ℚ × Position)
deriving DecidableEq, Repr

namespace LockDetector

/-- Constructor state of LockDetector: not locked, no timestamp, no details. -/
def init : LockDetector := ⟨false, none, none⟩

/-- LockDetector.calculatePayoff: winner shares redeem at 1.00, loser at 0. -/
def calculatePayoff (position : Position) (winner : Side) : ℚ :=
  let totalCost := position.yesCost + position.noCost
  match winner with
  | Side.YES => position.yesShares * 1 - totalCost
  | Side.NO => position.noShares * 1 - totalCost

/-- Result record of LockDetector.analyzePosition. -/
structure Analysis where
  yesShares : ℚ
  noShares : ℚ
  yesCost : ℚ
  noCost : ℚ
  totalCost : ℚ
  totalShares : ℚ
  avgYesPrice : ℚ
  avgNoPrice : ℚ
  pairCost : Option ℚ
  pnlIfYesWins : ℚ
  pnlIfNoWins : ℚ
  isDualLock : Bool
  isBreakeven : Bool
  yesDeficit : ℚ
  noDeficit : ℚ
  needsRecovery : Bool
  recoverySide : Side
deriving DecidableEq, Repr

/-- LockDetector.analyzePosition, field by field from the source. -/
def analyzePosition (position : Position) : Analysis :=
  let totalCost := position.yesCost + position.noCost
  let totalShares := position.yesShares + position.noShares
  let avgYesPrice := if position.yesShares > 0 then position.yesCost / position.yesShares else 0
  let avgNoPrice := if position.noShares > 0 then position.noCost / position.noShares else 0
  let pnlIfYesWins := calculatePayoff position Side.YES
  let pnlIfNoWins := calculatePayoff position Side.NO
  let pairedShares := min position.yesShares position.noShares
  let pairCost := if pairedShares > 0 then some (totalCost / pairedShares) else none
  { yesShares := position.yesShares
    noShares := position.noShares
    yesCost := position.yesCost
    noCost := position.noCost
    totalCost := totalCost
    totalShares := totalShares
    avgYesPrice := avgYesPrice
    avgNoPrice := avgNoPrice
    pairCost := pairCost
    pnlIfYesWins := pnlIfYesWins
    pnlIfNoWins := pnlIfNoWins
    isDualLock := decide (pnlIfYesWins > 0 ∧ pnlIfNoWins > 0)
    isBreakeven := decide (pnlIfYesWins ≥ 0 ∧ pnlIfNoWins ≥ 0)
    yesDeficit := if pnlIfYesWins < 0 then |pnlIfYesWins| else 0
    noDeficit := if pnlIfNoWins < 0 then |pnlIfNoWins| else 0
    needsRecovery := decide (pnlIfYesWins < 0 ∨ pnlIfNoWins < 0)
    recoverySide := if pnlIfYesWins < pnlIfNoWins then Side.YES else Side.NO }

/-- Return record of LockDetector.checkLock: the analysis spread together with
the (post-update) locked flag and timestamp. -/
structure CheckLockResult where
  analysis : Analysis
  locked : Bool
  lockTimestamp : Option ℕ
deriving DecidableEq, Repr

/-- LockDetector.checkLock: sticky transition into the locked state.  The JS
method mutates this.locked / this.lockTimestamp / this.lockDetails; here the
updated detector is returned alongside the result record.  Date.now() is the
explicit parameter now. -/
def checkLock (d : LockDetector) (now : ℕ) (position : Position) :
    CheckLockResult × LockDetector :=
  let analysis := analyzePosition position
  let d1 :=
    if analysis.isDualLock ∧ ¬d.locked then
      { locked := true
        lockTimestamp := some now
        lockDetails := some (analysis.pnlIfYesWins, analysis.pnlIfNoWins, position) }
    else d
  (⟨analysis, d1.locked, d1.lockTimestamp⟩, d1)

/-- Run checkLock over a list of (now, position) observations, returning the
sequence of locked flags reported to the caller. -/
def run (d : LockDetector) : List (ℕ × Position) → List Bool
  | [] => []
  | obs :: rest =>
    let step := checkLock d obs.1 obs.2
    step.1.locked :: run step.2 rest

/-- Return type of LockDetector.calculateRecoveryShares: the JS function
returns a finite number or Infinity. -/
inductive RecoveryShares where
  | finite (n : ℤ)
  | infinite
deriving DecidableEq, Repr

/-- LockDetector.calculateRecoveryShares: X = ceil(D/(1-P) + B), Infinity when
P is at or above 1, 0 when the deficit is non-positive. -/
def calculateRecoveryShares (deficit currentPrice buffer : ℚ) : RecoveryShares :=
  if deficit ≤ 0 then RecoveryShares.finite 0
  else if currentPrice ≥ 1 then RecoveryShares.infinite
  else RecoveryShares.finite ⌈deficit / (1 - currentPrice) + buffer⌉

/-- LockDetector.reset: clear the lock state for a new window. -/
def reset (_d : LockDetector) : LockDetector :=
  { locked := false, lockTimestamp := none, lockDetails := none }

end LockDetector

namespace ScoreCalculator

/-- ScoreCalculator.calculateTrendiness: abs(net return) over the sum of
absolute returns, 0 for an empty series or a zero denominator. -/
def calculateTrendiness (returns : List ℚ) : ℚ :=
  if returns = [] then 0
  else
    let netReturn := returns.sum
    let sumAbs := (returns.map (fun r => |r|)).sum
    if sumAbs = 0 then 0 else |netReturn| / sumAbs

end ScoreCalculator

/-- Market regime labels of the regime tracker. -/
inductive Regime where
  | STEADY
  | WAKING
  | FADING
  | CHOPPY
deriving DecidableEq, Repr

namespace RegimeTracker

/-- CONFIG.HISTORY_SIZE of the regime tracker. -/
def HISTORY_SIZE : ℕ := 24

/-- CONFIG.STEADY_THRESHOLD of the regime tracker. -/
def STEADY_THRESHOLD : ℚ := 15/100

/-- Statistics record of RegimeTracker.calculateStats.  The JS code carries
std = sqrt(variance); std only ever feeds the comparison std < threshold
with a non-negative threshold, which is equivalent to
variance < threshold^2, so the embedding carries the variance (the default
std of 0.5 becomes the default variance 1/4). -/
structure Stats where
  avg : ℚ
  variance : ℚ
  trend : ℚ
deriving DecidableEq, Repr

/-- RegimeTracker.calculateStats on the plain score history (the JS entries
pair each score with a timestamp that the statistics never read). -/
def calculateStats (scores : List ℚ) : Stats :=
  if scores.length < 3 then { avg := 1/2, variance := 1/4, trend := 0 }
  else
    let n : ℚ := scores.length
    let avg := scores.sum / n
    let variance := (scores.map (fun s => (s - avg) ^ 2)).sum / n
    let mid := scores.length / 2
    let first := scores.take mid
    let second := scores.drop mid
    let avgFirst := first.sum / (first.length : ℚ)
    let avgSecond := second.sum / (second.length : ℚ)
    { avg := avg, variance := variance, trend := avgSecond - avgFirst }

/-- RegimeTracker.updateRegime: the classification branch on the statistics;
std < STEADY_THRESHOLD in the source is variance < STEADY_THRESHOLD^2 here. -/
def updateRegime (scores : List ℚ) : Regime :=
  let stats := calculateStats scores
  if stats.variance < STEADY_THRESHOLD ^ 2 then
    if stats.trend > 5/100 then Regime.WAKING
    else if stats.trend < -(5/100) then Regime.FADING
    else Regime.STEADY
  else Regime.CHOPPY

/-- RegimeTracker.addScore on the plain history: push the new score and drop
the oldest entry once the history exceeds HISTORY_SIZE. -/
def addScore (hist : List ℚ) (score : ℚ) : List ℚ :=
  let h := hist ++ [score]
  if h.length > HISTORY_SIZE then h.tail else h

end RegimeTracker

/-- Mutable fields of the JS RollingAverage: a fixed window in milliseconds
and the retained (timestamp, value) samples. -/
structure RollingAverage where
  windowMs : ℕ
  samples : List (ℕ × ℚ)
deriving DecidableEq, Repr

namespace RollingAverage

/-- Constructor state of RollingAverage with the given window. -/
def mk0 (windowMs : ℕ) : RollingAverage := ⟨windowMs, []⟩

/-- RollingAverage.cleanup at time now: keep samples with timestamp at or
after the cutoff Date.now() - windowMs (ℕ subtraction truncates at 0, as the
JS cutoff would simply be negative before the window fills). -/
def cleanup (ra : RollingAverage) (now : ℕ) : RollingAverage :=
  { ra with samples := ra.samples.filter (fun s => now - ra.windowMs ≤ s.1) }

/-- RollingAverage.add: every caller in the repository adds with the default
timestamp Date.now(), so the sample timestamp and the cleanup clock coincide
in the parameter now. -/
def add (ra : RollingAverage) (value : ℚ) (now : ℕ) : RollingAverage :=
  cleanup { ra with samples := ra.samples ++ [(now, value)] } now

/-- RollingAverage.getAverage: null when no sample survives the window. -/
def getAverage (ra : RollingAverage) (now : ℕ) : Option ℚ :=
  let ra1 := cleanup ra now
  if ra1.samples.length = 0 then none
  else some ((ra1.samples.map Prod.snd).sum / (ra1.samples.length : ℚ))

/-- RollingAverage.getCount. -/
def getCount (ra : RollingAverage) (now : ℕ) : ℕ := (cleanup ra now).samples.length

end RollingAverage

/-- Mutable fields of the JS RollingCounter: event timestamps in a window. -/
structure RollingCounter where
  windowMs : ℕ
  events : List ℕ
deriving DecidableEq, Repr

namespace RollingCounter

/-- Constructor state of RollingCounter. -/
def mk0 (windowMs : ℕ) : RollingCounter := ⟨windowMs, []⟩

/-- RollingCounter.cleanup at time now. -/
def cleanup (c : RollingCounter) (now : ℕ) : RollingCounter :=
  { c with events := c.events.filter (fun t => now - c.windowMs ≤ t) }

/-- RollingCounter.record at time now. -/
def record (c : RollingCounter) (now : ℕ) : RollingCounter :=
  cleanup { c with events := c.events ++ [now] } now

/-- RollingCounter.getCount at time now. -/
def getCount (c : RollingCounter) (now : ℕ) : ℕ := (cleanup c now).events.length

/-- RollingCounter.reset. -/
def reset (c : RollingCounter) : RollingCounter := { c with events := [] }

end RollingCounter

/-- Side selector of OBICalculator.getRollingOBI: the JS string argument is
YES, NO, or anything else (the combined average). -/
inductive ObiSide where
  | YES
  | NO
  | COMBINED
deriving DecidableEq, Repr

/-- Mutable fields of the JS OBICalculator. -/
structure OBICalculator where
  windowMs : ℕ
  topN : ℕ
  obiYes : RollingAverage
  obiNo : RollingAverage
  obiCombined : RollingAverage
deriving DecidableEq, Repr

namespace OBICalculator

/-- Constructor state of OBICalculator. -/
def mk0 (windowMs topN : ℕ) : OBICalculator :=
  ⟨windowMs, topN, RollingAverage.mk0 windowMs, RollingAverage.mk0 windowMs,
    RollingAverage.mk0 windowMs⟩

/-- OBICalculator.calculateOBI: (bidVol - askVol)/(bidVol + askVol), 0 when
the total volume is 0. -/
def calculateOBI (bidVolume askVolume : ℚ) : ℚ :=
  let total := bidVolume + askVolume
  if total = 0 then 0 else (bidVolume - askVolume) / total

/-- OBICalculator.updateFromPrices: price-deviation fallback estimator. -/
def updateFromPrices (c : OBICalculator) (priceYes priceNo : ℚ) (now : ℕ) : OBICalculator :=
  let yesImbalance := (priceYes - 1/2) * 2
  let noImbalance := (priceNo - 1/2) * 2
  { c with
    obiYes := c.obiYes.add yesImbalance now
    obiNo := c.obiNo.add noImbalance now
    obiCombined := c.obiCombined.add ((yesImbalance - noImbalance) / 2) now }

/-- OBICalculator.getRollingOBI: the rolling average of the chosen side, with
the JS coalescion getAverage() || 0 mapping a null (and a zero) average to 0. -/
def getRollingOBI (c : OBICalculator) (now : ℕ) (side : ObiSide) : ℚ :=
  match side with
  | ObiSide.YES => (c.obiYes.getAverage now).getD 0
  | ObiSide.NO => (c.obiNo.getAverage now).getD 0
  | ObiSide.COMBINED => (c.obiCombined.getAverage now).getD 0

/-- OBICalculator.isBlocking: rolling OBI at or below the threshold. -/
def isBlocking (c : OBICalculator) (now : ℕ) (side : ObiSide) (threshold : ℚ) : Bool :=
  decide (getRollingOBI c now side ≤ threshold)

end OBICalculator

/-- Record returned by LeaderTracker.update. -/
structure LeaderUpdate where
  leader : Option Side
  flipped : Bool
  flipCount : ℕ
  totalFlips : ℕ
  priceYes : ℚ
  priceNo : ℚ
  spread : ℚ
deriving DecidableEq, Repr

/-- Mutable fields of the JS LeaderTracker. -/
structure LeaderTracker where
  windowMs : ℕ
  flipCounter : RollingCounter
  leaderHistory : RollingAverage
  currentLeader : Option Side
  pendingFlip : Option Side
  pendingFlipCount : ℕ
  totalFlips : ℕ
deriving DecidableEq, Repr

namespace LeaderTracker

/-- Constructor state of LeaderTracker. -/
def mk0 (windowMs : ℕ) : LeaderTracker :=
  ⟨windowMs, RollingCounter.mk0 windowMs, RollingAverage.mk0 windowMs, none, none, 0, 0⟩

/-- Instantaneous leader: YES on a strictly higher YES price, NO otherwise
(ties default to NO). -/
def leaderOf (priceYes priceNo : ℚ) : Side :=
  if priceYes > priceNo then Side.YES else Side.NO

/-- LeaderTracker.update, with Date.now() passed as now.  A potential flip
needs 2-tick persistence: a fresh opposite leader becomes the pending
candidate with count 1; repeating it reaches count 2 and commits the flip;
an observation matching the current leader abandons the candidate. -/
def update (t : LeaderTracker) (now : ℕ) (priceYes priceNo : ℚ) :
    LeaderUpdate × LeaderTracker :=
  let newLeader := leaderOf priceYes priceNo
  let t0 := { t with leaderHistory :=
    t.leaderHistory.add (if newLeader = Side.YES then 1 else -1) now }
  let step : LeaderTracker × Bool :=
    match t0.currentLeader with
    | none => ({ t0 with currentLeader := some newLeader }, false)
    | some cur =>
      if newLeader ≠ cur then
        if t0.pendingFlip = some newLeader then
          if t0.pendingFlipCount + 1 ≥ 2 then
            ({ t0 with
                currentLeader := some newLeader
                flipCounter := t0.flipCounter.record now
                totalFlips := t0.totalFlips + 1
                pendingFlip := none
                pendingFlipCount := 0 }, true)
          else ({ t0 with pendingFlipCount := t0.pendingFlipCount + 1 }, false)
        else ({ t0 with pendingFlip := some newLeader, pendingFlipCount := 1 }, false)
      else ({ t0 with pendingFlip := none, pendingFlipCount := 0 }, false)
  (⟨step.1.currentLeader, step.2, step.1.flipCounter.getCount now, step.1.totalFlips,
      priceYes, priceNo, |priceYes - priceNo|⟩, step.1)

/-- LeaderTracker.getLeader. -/
def getLeader (t : LeaderTracker) : Option Side := t.currentLeader

/-- LeaderTracker.getFlipCount. -/
def getFlipCount (t : LeaderTracker) (now : ℕ) : ℕ := t.flipCounter.getCount now

/-- LeaderTracker.getLeaderBias: average of the leader history, null
coalesced to 0. -/
def getLeaderBias (t : LeaderTracker) (now : ℕ) : ℚ :=
  (t.leaderHistory.getAverage now).getD 0

/-- LeaderTracker.resetForNewWindow: clears the flip counters and the
pending candidate and keeps currentLeader for continuity. -/
def resetForNewWindow (t : LeaderTracker) : LeaderTracker :=
  { t with
    flipCounter := t.flipCounter.reset
    totalFlips := 0
    pendingFlip := none
    pendingFlipCount := 0 }

end LeaderTracker

/-- Names of the seven guardrail checks, the keys of the results object. -/
inductive CheckName where
  | FOREMAN
  | RHR
  | OBI
  | FLIPS
  | STABILITY
  | SPREAD
  | PAIR_COST
deriving DecidableEq, Repr

/-- Kinds of the human-readable reason strings produced by the guardrail
checks (the embedding abstracts the formatted text to its kind). -/
inductive ReasonTag where
  | foremanNotStart
  | rhrTooEarly
  | obiBlocking
  | flipsSkip
  | flipsRecovery
  | stabilityLow
  | spreadTooNarrow
  | spreadTooWide
  | pairCostTooHigh
deriving DecidableEq, Repr

/-- Modes of the flip-count check. -/
inductive FlipMode where
  | SKIP
  | RECOVERY
  | NORMAL
deriving DecidableEq, Repr

/-- Overall guardrail decision modes. -/
inductive GuardMode where
  | BLOCKED
  | RECOVERY
  | ENTRY_ALLOWED
deriving DecidableEq, Repr

/-- Upstream foreman order grades. -/
inductive ForemanOrder where
  | START
  | HOLD
  | STOP
deriving DecidableEq, Repr

/-- CONFIG of the guardrails module. -/
structure GuardConfig where
  RHR_THRESHOLD : ℚ
  OBI_BLOCK_THRESHOLD : ℚ
  FLIP_SKIP_COUNT : ℕ
  FLIP_RECOVERY_COUNT : ℕ
  MIN_STABILITY : ℚ
  MIN_SPREAD : ℚ
  MAX_SPREAD : ℚ
  MAX_PAIR_COST : ℚ
deriving DecidableEq, Repr

/-- Result of a single guardrail check: the passed flag and the reason (null
in the JS exactly when no reason text is produced). -/
structure GuardCheck where
  passed : Bool
  reason : Option ReasonTag
deriving DecidableEq, Repr

/-- Result of the flip-count check, which additionally carries a mode. -/
structure FlipsCheck where
  passed : Bool
  mode : FlipMode
  reason : Option ReasonTag
deriving DecidableEq, Repr

namespace Guardrails

/-- The CONFIG defaults of the guardrails module. -/
def defaultConfig : GuardConfig :=
  { RHR_THRESHOLD := 10/100
    OBI_BLOCK_THRESHOLD := -(30/100)
    FLIP_SKIP_COUNT := 2
    FLIP_RECOVERY_COUNT := 3
    MIN_STABILITY := 6/10
    MIN_SPREAD := 0
    MAX_SPREAD := 50/100
    MAX_PAIR_COST := 99/100 }

/-- Guardrails.checkRHR: window progress must reach the RHR threshold. -/
def checkRHR (cfg : GuardConfig) (elapsedSec windowSec : ℚ) : GuardCheck :=
  let progress := elapsedSec / windowSec
  let passed := decide (progress ≥ cfg.RHR_THRESHOLD)
  ⟨passed, if passed then none else some ReasonTag.rhrTooEarly⟩

/-- Guardrails.checkOBI: blocking when the rolling OBI is at or below the
block threshold (the JS side argument only decorates the reason text). -/
def checkOBI (cfg : GuardConfig) (obi : ℚ) : GuardCheck :=
  let blocking := decide (obi ≤ cfg.OBI_BLOCK_THRESHOLD)
  ⟨!blocking, if blocking then some ReasonTag.obiBlocking else none⟩

/-- Guardrails.checkFlips: enough flips with no shares is a hard SKIP, enough
flips with shares passes in RECOVERY mode, anything else passes NORMAL. -/
def checkFlips (cfg : GuardConfig) (flipCount : ℕ) (shares : ℚ) : FlipsCheck :=
  if flipCount ≥ cfg.FLIP_SKIP_COUNT ∧ shares = 0 then
    ⟨false, FlipMode.SKIP, some ReasonTag.flipsSkip⟩
  else if flipCount ≥ cfg.FLIP_RECOVERY_COUNT ∧ shares > 0 then
    ⟨true, FlipMode.RECOVERY, some ReasonTag.flipsRecovery⟩
  else ⟨true, FlipMode.NORMAL, none⟩

/-- Guardrails.checkStability. -/
def checkStability (cfg : GuardConfig) (stability : ℚ) : GuardCheck :=
  let passed := decide (stability ≥ cfg.MIN_STABILITY)
  ⟨passed, if passed then none else some ReasonTag.stabilityLow⟩

/-- Guardrails.checkSpread: the YES/NO price spread must lie between the
minimum and maximum spread. -/
def checkSpread (cfg : GuardConfig) (priceYes priceNo : ℚ) : GuardCheck :=
  let spread := |priceYes - priceNo|
  let tooNarrow := decide (spread < cfg.MIN_SPREAD)
  let tooWide := decide (spread > cfg.MAX_SPREAD)
  ⟨!tooNarrow && !tooWide,
    if tooNarrow then some ReasonTag.spreadTooNarrow
    else if tooWide then some ReasonTag.spreadTooWide
    else none⟩

/-- Guardrails.checkPairCost: a null pair cost passes vacuously. -/
def checkPairCost (cfg : GuardConfig) (pairCost : Option ℚ) : GuardCheck :=
  match pairCost with
  | none => ⟨true, none⟩
  | some pc =>
    let passed := decide (pc ≤ cfg.MAX_PAIR_COST)
    ⟨passed, if passed then none else some ReasonTag.pairCostTooHigh⟩

/-- The per-check results record of Guardrails.checkAll. -/
structure GuardResults where
  foreman : GuardCheck
  rhr : GuardCheck
  obi : GuardCheck
  flips : FlipsCheck
  stability : GuardCheck
  spread : GuardCheck
  pairCost : GuardCheck
deriving DecidableEq, Repr

/-- The (name, passed, reason) triples of a results record in the JS
Object.entries order. -/
def GuardResults.entries (r : GuardResults) : List (CheckName × Bool × Option ReasonTag) :=
  [(CheckName.FOREMAN, r.foreman.passed, r.foreman.reason),
   (CheckName.RHR, r.rhr.passed, r.rhr.reason),
   (CheckName.OBI, r.obi.passed, r.obi.reason),
   (CheckName.FLIPS, r.flips.passed, r.flips.reason),
   (CheckName.STABILITY, r.stability.passed, r.stability.reason),
   (CheckName.SPREAD, r.spread.passed, r.spread.reason),
   (CheckName.PAIR_COST, r.pairCost.passed, r.pairCost.reason)]

/-- Inputs of Guardrails.checkAll; the JS parameter defaults (windowSec 900,
obiSide YES, foremanOrder START, pairCost null) are supplied by callers. -/
structure GuardInputs where
  elapsedSec : ℚ
  windowSec : ℚ
  obi : ℚ
  flipCount : ℕ
  shares : ℚ
  stability : ℚ
  priceYes : ℚ
  priceNo : ℚ
  foremanOrder : ForemanOrder
  pairCost : Option ℚ
deriving DecidableEq, Repr

/-- Overall decision record of Guardrails.checkAll (the summary string is
presentation only and not modelled). -/
structure GuardDecision where
  allowed : Bool
  mode : GuardMode
  results : GuardResults
  blockers : List (CheckName × Option ReasonTag)
deriving DecidableEq, Repr

/-- Guardrails.checkAll: run the seven checks, AND-gate the decision, list
every failing check with its reason as a blocker, and derive the mode. -/
def checkAll (cfg : GuardConfig) (inp : GuardInputs) : GuardDecision :=
  let results : GuardResults :=
    { foreman := ⟨decide (inp.foremanOrder = ForemanOrder.START),
        if inp.foremanOrder = ForemanOrder.START then none
        else some ReasonTag.foremanNotStart⟩
      rhr := checkRHR cfg inp.elapsedSec inp.windowSec
      obi := checkOBI cfg inp.obi
      flips := checkFlips cfg inp.flipCount inp.shares
      stability := checkStability cfg inp.stability
      spread := checkSpread cfg inp.priceYes inp.priceNo
      pairCost := checkPairCost cfg inp.pairCost }
  let allPassed := results.entries.all (fun e => e.2.1)
  let blockers := (results.entries.filter (fun e => !e.2.1)).map (fun e => (e.1, e.2.2))
  let mode :=
    if allPassed then
      if results.flips.mode = FlipMode.RECOVERY then GuardMode.RECOVERY
      else GuardMode.ENTRY_ALLOWED
    else GuardMode.BLOCKED
  ⟨allPassed, mode, results, blockers⟩

end Guardrails

/-- STATES of the advanced worker state machine. -/
inductive WorkerState where
  | IDLE
  | ARMED
  | ENTRY
  | LADDERING
  | LOCKING
  | LOCKED
  | RECOVERY
  | ENDGAME
deriving DecidableEq, Repr

/-- Order types of the simulated exchange as the worker uses them. -/
inductive OrderType where
  | FOK
  | IOC
  | GTC
deriving DecidableEq, Repr

/-- Order statuses the worker reads back from placeOrder. -/
inductive OrderStatus where
  | FILLED
  | KILLED
  | OPEN
deriving DecidableEq, Repr

/-- Oracle for the simulated-exchange placeOrder response, as far as the
worker reads it back (status, fillPrice, size). -/
structure FillResult where
  status : OrderStatus
  fillPrice : ℚ
  size : ℚ
deriving DecidableEq, Repr

/-- Per-asset risk caps resolved by AdvancedWorker.getRiskCaps. -/
structure RiskCaps where
  maxShares : ℚ
  maxNotional : ℚ
  maxOpenOrders : ℕ
deriving DecidableEq, Repr

namespace AdvancedWorker

/-- CONFIG.ENTRY_PRICE_YES. -/
def ENTRY_PRICE_YES : ℚ := 60/100

/-- CONFIG.ENTRY_PRICE_NO. -/
def ENTRY_PRICE_NO : ℚ := 40/100

/-- CONFIG.ENTRY_SIZE. -/
def ENTRY_SIZE : ℚ := 10

/-- CONFIG.LADDER_LEVELS. -/
def LADDER_LEVELS : List ℚ := [38/100, 36/100, 34/100, 32/100, 30/100]

/-- CONFIG.LADDER_SIZE. -/
def LADDER_SIZE : ℚ := 5

/-- CONFIG.MAX_PAIR_COST of the worker (distinct from the guardrail one). -/
def MAX_PAIR_COST : ℚ := 1

/-- CONFIG.PAIR_COST_BUFFER. -/
def PAIR_COST_BUFFER : ℚ := 2/100

/-- CONFIG.ENDGAME_SECONDS. -/
def ENDGAME_SECONDS : ℚ := 10

/-- CONFIG.ENDGAME_PRICE. -/
def ENDGAME_PRICE : ℚ := 92/100

/-- Per-asset mutable state created by AdvancedWorker.initAssetState. -/
structure AssetState where
  state : WorkerState
  leaderTracker : LeaderTracker
  obiCalculator : OBICalculator
  lockDetector : LockDetector
  lastWindowId : Option ℕ
  lastTokens : Option ℕ × Option ℕ
  entryDone : Bool
  ladderDone : Bool
  position : Position
deriving DecidableEq, Repr

/-- AdvancedWorker.initAssetState: the fresh per-asset record. -/
def initAssetState : AssetState :=
  { state := WorkerState.IDLE
    leaderTracker := LeaderTracker.mk0 90000
    obiCalculator := OBICalculator.mk0 90000 10
    lockDetector := LockDetector.init
    lastWindowId := none
    lastTokens := (none, none)
    entryDone := false
    ladderDone := false
    position := ⟨0, 0, 0, 0⟩ }

/-- AdvancedWorker.canPlaceOrder: reject when projected total shares exceed
the share cap or projected total cost exceeds the notional cap (the JS
asset/label arguments only decorate log lines). -/
def canPlaceOrder (state : AssetState) (price size : ℚ) (caps : RiskCaps) : Bool :=
  let currentShares := state.position.yesShares + state.position.noShares
  let currentCost := state.position.yesCost + state.position.noCost
  let orderCost := price * size
  if currentShares + size > caps.maxShares then false
  else if currentCost + orderCost > caps.maxNotional then false
  else true

/-- AdvancedWorker.canAddPairPosition: project the post-order pair cost with
the 2% taker-fee surcharge on FOK/IOC orders. -/
def canAddPairPosition (state : AssetState) (side : Side) (price size : ℚ)
    (orderType : OrderType) : Bool :=
  let feeRate : ℚ := if orderType = OrderType.FOK ∨ orderType = OrderType.IOC
    then 2/100 else 0
  let addedCost := price * size * (1 + feeRate)
  let nextYesShares := if side = Side.YES then state.position.yesShares + size
    else state.position.yesShares
  let nextNoShares := if side = Side.NO then state.position.noShares + size
    else state.position.noShares
  let nextYesCost := if side = Side.YES then state.position.yesCost + addedCost
    else state.position.yesCost
  let nextNoCost := if side = Side.NO then state.position.noCost + addedCost
    else state.position.noCost
  let pairedShares := min nextYesShares nextNoShares
  if pairedShares ≤ 0 then true
  else
    let pairCost := (nextYesCost + nextNoCost) / pairedShares
    if pairCost > MAX_PAIR_COST + PAIR_COST_BUFFER then false else true

/-- The new-window branch at the top of AdvancedWorker.processAsset: a tick
whose window id differs from the last seen one resets every per-window
mutable field before any trading logic runs (registering the old position
with the resolution tracker is an external effect with no per-asset state). -/
def detectNewWindow (s : AssetState) (windowId : ℕ) (tokens : Option ℕ × Option ℕ) :
    AssetState :=
  if some windowId ≠ s.lastWindowId then
    { s with
      state := WorkerState.ARMED
      entryDone := false
      ladderDone := false
      leaderTracker := s.leaderTracker.resetForNewWindow
      lockDetector := s.lockDetector.reset
      lastWindowId := some windowId
      lastTokens := tokens
      position := ⟨0, 0, 0, 0⟩ }
  else s

/-- AdvancedWorker.handleArmed: evaluate the guardrails (stability is the
hardcoded 0.7 placeholder, foreman START, pair cost null) and enter ENTRY or
RECOVERY when allowed. -/
def handleArmed (s : AssetState) (elapsedSec : ℚ) (leaderInfo : LeaderUpdate)
    (now : ℕ) : AssetState :=
  let check := Guardrails.checkAll Guardrails.defaultConfig
    { elapsedSec := elapsedSec
      windowSec := 900
      obi := s.obiCalculator.getRollingOBI now ObiSide.YES
      flipCount := leaderInfo.flipCount
      shares := s.position.yesShares + s.position.noShares
      stability := 7/10
      priceYes := leaderInfo.priceYes
      priceNo := leaderInfo.priceNo
      foremanOrder := ForemanOrder.START
      pairCost := none }
  if check.allowed then
    if check.mode = GuardMode.RECOVERY then { s with state := WorkerState.RECOVERY }
    else { s with state := WorkerState.ENTRY }
  else s

/-- AdvancedWorker.handleEntry: at most one best-effort FOK entry on the
leader side; the exchange response arrives through the fill oracle; every
path sets entryDone and moves to LADDERING. -/
def handleEntry (s : AssetState) (tokens : Option ℕ × Option ℕ) (caps : RiskCaps)
    (fill : FillResult) : AssetState :=
  if s.entryDone then { s with state := WorkerState.LADDERING }
  else
    let leaderIsYes := s.leaderTracker.getLeader = some Side.YES
    let tokenId := if leaderIsYes then tokens.1 else tokens.2
    let entryPrice := if leaderIsYes then ENTRY_PRICE_YES else ENTRY_PRICE_NO
    let entrySide := if leaderIsYes then Side.YES else Side.NO
    match tokenId with
    | none => { s with entryDone := true, state := WorkerState.LADDERING }
    | some _ =>
      if ¬canPlaceOrder s entryPrice ENTRY_SIZE caps then
        { s with entryDone := true, state := WorkerState.LADDERING }
      else if ¬canAddPairPosition s entrySide entryPrice ENTRY_SIZE OrderType.FOK then
        { s with entryDone := true, state := WorkerState.LADDERING }
      else
        let s1 :=
          if fill.status = OrderStatus.FILLED then
            if leaderIsYes then
              { s with position := { s.position with
                  yesShares := s.position.yesShares + ENTRY_SIZE
                  yesCost := s.position.yesCost + fill.fillPrice * ENTRY_SIZE } }
            else
              { s with position := { s.position with
                  noShares := s.position.noShares + ENTRY_SIZE
                  noCost := s.position.noCost + fill.fillPrice * ENTRY_SIZE } }
          else s
        { s1 with entryDone := true, state := WorkerState.LADDERING }

/-- AdvancedWorker.handleLaddering: the ladder loop only emits GTC orders to
the exchange (each level gated by the risk checks and the open-order count)
and writes no per-asset state besides the done flag and the state field, so
its embedded state effect is exactly those two fields on every path. -/
def handleLaddering (s : AssetState) : AssetState :=
  if s.ladderDone then { s with state := WorkerState.LOCKING }
  else { s with ladderDone := true, state := WorkerState.LOCKING }

/-- AdvancedWorker.handleLocking: run the sticky lock check; when locked move
to LOCKED, else move to RECOVERY when the recovery-side deficit exceeds 5. -/
def handleLocking (s : AssetState) (now : ℕ) : AssetState :=
  let step := s.lockDetector.checkLock now s.position
  let s0 := { s with lockDetector := step.2 }
  if step.1.locked then { s0 with state := WorkerState.LOCKED }
  else
    let analysis := step.1.analysis
    if analysis.needsRecovery then
      let deficit := if analysis.recoverySide = Side.YES then analysis.yesDeficit
        else analysis.noDeficit
      if deficit > 5 then { s0 with state := WorkerState.RECOVERY } else s0
    else s0

/-- AdvancedWorker.handleRecovery: one corrective IOC attempt sized by
calculateRecoveryShares (an Infinity share count always exceeds the share
cap), then back to LOCKING on every path.  The JS falsy coalescions
result.size || min(sharesNeeded, 10) and result.fillPrice || price are
modelled on the value 0. -/
def handleRecovery (s : AssetState) (tokens : Option ℕ × Option ℕ)
    (priceYes priceNo : ℚ) (caps : RiskCaps) (fill : FillResult) : AssetState :=
  let analysis := LockDetector.analyzePosition s.position
  let recoverySide := analysis.recoverySide
  let deficit := if recoverySide = Side.YES then analysis.yesDeficit else analysis.noDeficit
  let price := if recoverySide = Side.YES then priceYes else priceNo
  let currentShares := s.position.yesShares + s.position.noShares
  let currentCost := s.position.yesCost + s.position.noCost
  match LockDetector.calculateRecoveryShares deficit price 2 with
  | LockDetector.RecoveryShares.infinite => { s with state := WorkerState.LOCKING }
  | LockDetector.RecoveryShares.finite n =>
    if currentShares + (n : ℚ) > caps.maxShares then { s with state := WorkerState.LOCKING }
    else if currentCost + (n : ℚ) * price > caps.maxNotional then
      { s with state := WorkerState.LOCKING }
    else
      let tokenId := if recoverySide = Side.YES then tokens.1 else tokens.2
      if tokenId.isSome ∧ 0 < n ∧ n < 50 then
        let size : ℚ := min (n : ℚ) 10
        if ¬canPlaceOrder s (price + 2/100) size caps then
          { s with state := WorkerState.LOCKING }
        else if ¬canAddPairPosition s recoverySide (price + 2/100) size OrderType.IOC then
          { s with state := WorkerState.LOCKING }
        else
          let s1 :=
            if fill.status = OrderStatus.FILLED then
              let rsize := if fill.size = 0 then size else fill.size
              let rprice := if fill.fillPrice = 0 then price else fill.fillPrice
              if recoverySide = Side.YES then
                { s with position := { s.position with
                    yesShares := s.position.yesShares + rsize
                    yesCost := s.position.yesCost + rprice * rsize } }
              else
                { s with position := { s.position with
                    noShares := s.position.noShares + rsize
                    noCost := s.position.noCost + rprice * rsize } }
            else s
          { s1 with state := WorkerState.LOCKING }
      else { s with state := WorkerState.LOCKING }

/-- AdvancedWorker.handleEndgame: the endgame top-up only emits an IOC order
to the exchange and never writes any per-asset state back, so its embedded
state effect is the identity. -/
def handleEndgame (s : AssetState) : AssetState := s

/-- The state-machine switch of AdvancedWorker.processAsset. -/
def dispatch (s : AssetState) (tokens : Option ℕ × Option ℕ) (now : ℕ)
    (priceYes priceNo elapsedSec remainingSec : ℚ) (leaderInfo : LeaderUpdate)
    (caps : RiskCaps) (fill : FillResult) : AssetState :=
  match s.state with
  | WorkerState.ARMED => handleArmed s elapsedSec leaderInfo now
  | WorkerState.ENTRY => handleEntry s tokens caps fill
  | WorkerState.LADDERING => handleLaddering s
  | WorkerState.LOCKING => handleLocking s now
  | WorkerState.LOCKED =>
      if remainingSec ≤ ENDGAME_SECONDS then { s with state := WorkerState.ENDGAME } else s
  | WorkerState.RECOVERY => handleRecovery s tokens priceYes priceNo caps fill
  | WorkerState.ENDGAME => handleEndgame s
  | WorkerState.IDLE => s

/-- One AdvancedWorker.processAsset tick once prices are known: the
new-window reset, the leader-tracker update, the external OBI refresh (its
result is the oracle obiUpdated), and the state-machine dispatch.  The fill
oracle carries the exchange response to whatever single order the dispatched
handler may place. -/
def stepAsset (s : AssetState) (windowId : ℕ) (tokens : Option ℕ × Option ℕ)
    (now : ℕ) (priceYes priceNo elapsedSec remainingSec : ℚ)
    (obiUpdated : OBICalculator) (caps : RiskCaps) (fill : FillResult) : AssetState :=
  let s1 := detectNewWindow s windowId tokens
  let upd := s1.leaderTracker.update now priceYes priceNo
  let s2 := { s1 with leaderTracker := upd.2, obiCalculator := obiUpdated }
  dispatch s2 tokens now priceYes priceNo elapsedSec remainingSec upd.1 caps fill

/-- No-reset relation between an asset state and its successor: position
components never decrease, the done flags and the lock flag are never
cleared, and the window flip total never decreases — the negation of any
per-window total reset. -/
def NoReset (s t : AssetState) : Prop :=
  s.position.yesShares ≤ t.position.yesShares ∧
  s.position.yesCost ≤ t.position.yesCost ∧
  s.position.noShares ≤ t.position.noShares ∧
  s.position.noCost ≤ t.position.noCost ∧
  (s.entryDone = true → t.entryDone = true) ∧
  (s.ladderDone = true → t.ladderDone = true) ∧
  (s.lockDetector.locked = true → t.lockDetector.locked = true) ∧
  s.leaderTracker.totalFlips ≤ t.leaderTracker.totalFlips

end AdvancedWorker

end PolymarketTrade

namespace PolymarketTrade

/-- C1: analyzePosition computes pnlIfYesWins = yesShares - totalCost,
pnlIfNoWins = noShares - totalCost and isDualLock iff both are positive; at
the position {20, 9, 20, 9} it yields pnl 2 on both sides and a dual lock. -/
theorem claim_C1_analyzePosition :
    (∀ p : Position, 0 ≤ p.yesShares → 0 ≤ p.yesCost → 0 ≤ p.noShares → 0 ≤ p.noCost →
      (LockDetector.analyzePosition p).pnlIfYesWins
          = p.yesShares * 1 - (p.yesCost + p.noCost) ∧
      (LockDetector.analyzePosition p).pnlIfNoWins
          = p.noShares * 1 - (p.yesCost + p.noCost) ∧
      ((LockDetector.analyzePosition p).isDualLock = true ↔
        (LockDetector.analyzePosition p).pnlIfYesWins > 0 ∧
        (LockDetector.analyzePosition p).pnlIfNoWins > 0)) ∧
    (LockDetector.analyzePosition ⟨20, 9, 20, 9⟩).pnlIfYesWins = 2 ∧
    (LockDetector.analyzePosition ⟨20, 9, 20, 9⟩).pnlIfNoWins = 2 ∧
    (LockDetector.analyzePosition ⟨20, 9, 20, 9⟩).isDualLock = true := by
  refine ⟨fun p _ _ _ _ => ⟨rfl, rfl, ?_⟩,
    by norm_num [LockDetector.analyzePosition, LockDetector.calculatePayoff],
    by norm_num [LockDetector.analyzePosition, LockDetector.calculatePayoff],
    by norm_num [LockDetector.analyzePosition, LockDetector.calculatePayoff]⟩
  simp [LockDetector.analyzePosition, LockDetector.calculatePayoff]

/-- Witness for C1: the universally quantified part applied at the concrete
position {20, 9, 20, 9}, whose fields are all non-negative. -/
theorem claim_C1_analyzePosition_witness :
    (LockDetector.analyzePosition ⟨20, 9, 20, 9⟩).pnlIfYesWins
        = (20 : ℚ) * 1 - (9 + 9) ∧
    (LockDetector.analyzePosition ⟨20, 9, 20, 9⟩).pnlIfNoWins
        = (20 : ℚ) * 1 - (9 + 9) ∧
    ((LockDetector.analyzePosition ⟨20, 9, 20, 9⟩).isDualLock = true ↔
      (LockDetector.analyzePosition ⟨20, 9, 20, 9⟩).pnlIfYesWins > 0 ∧
      (LockDetector.analyzePosition ⟨20, 9, 20, 9⟩).pnlIfNoWins > 0) :=
  claim_C1_analyzePosition.1 ⟨20, 9, 20, 9⟩ (by norm_num) (by norm_num) (by norm_num)
    (by norm_num)

/-- C7: for a positive deficit, calculateRecoveryShares is
ceil(deficit/(1-price) + buffer) when the price is below 1 and the hard
Infinity marker when the price is at or above 1. -/
theorem claim_C7_calculateRecoveryShares :
    (∀ deficit currentPrice buffer : ℚ, 0 < deficit → currentPrice < 1 →
      LockDetector.calculateRecoveryShares deficit currentPrice buffer
        = LockDetector.RecoveryShares.finite ⌈deficit / (1 - currentPrice) + buffer⌉) ∧
    (∀ deficit currentPrice buffer : ℚ, 0 < deficit → 1 ≤ currentPrice →
      LockDetector.calculateRecoveryShares deficit currentPrice buffer
        = LockDetector.RecoveryShares.infinite) := by
  constructor
  · intro d p b hd hp
    rw [LockDetector.calculateRecoveryShares, if_neg (not_le.mpr hd), if_neg (not_le.mpr hp)]
  · intro d p b hd hp
    rw [LockDetector.calculateRecoveryShares, if_neg (not_le.mpr hd), if_pos hp]

/-- Witness for C7 at deficit 1, buffer 2, with price 1/2 below 1 and price 1
at the boundary. -/
theorem claim_C7_calculateRecoveryShares_witness :
    LockDetector.calculateRecoveryShares 1 (1/2) 2
      = LockDetector.RecoveryShares.finite ⌈(1 : ℚ) / (1 - 1/2) + 2⌉ ∧
    LockDetector.calculateRecoveryShares 1 1 2 = LockDetector.RecoveryShares.infinite :=
  ⟨claim_C7_calculateRecoveryShares.1 1 (1/2) 2 (by norm_num) (by norm_num),
   claim_C7_calculateRecoveryShares.2 1 1 2 (by norm_num) (by norm_num)⟩

namespace LockDetector

/-- checkLock never clears the locked flag: a locked detector stays locked. -/
theorem checkLock_locked_of_locked (d : LockDetector) (now : ℕ) (p : Position)
    (h : d.locked = true) : (d.checkLock now p).2.locked = true := by
  unfold checkLock
  dsimp only
  split
  · rfl
  · exact h

/-- The locked flag reported by checkLock is the post-update detector flag. -/
theorem checkLock_fst_locked (d : LockDetector) (now : ℕ) (p : Position) :
    (d.checkLock now p).1.locked = (d.checkLock now p).2.locked := rfl

/-- Once a detector is locked, every flag produced by a run of checkLock calls
is true. -/
theorem run_all_true_of_locked (obs : List (ℕ × Position)) :
    ∀ d : LockDetector, d.locked = true → ∀ b ∈ run d obs, b = true := by
  induction obs with
  | nil =>
    intro d _ b hb
    simp [run] at hb
  | cons o rest ih =>
    intro d hd b hb
    have h2 : (d.checkLock o.1 o.2).2.locked = true :=
      checkLock_locked_of_locked d o.1 o.2 hd
    rw [run] at hb
    rcases List.mem_cons.mp hb with hb | hb
    · rw [hb, checkLock_fst_locked]
      exact h2
    · exact ih _ h2 b hb

/-- A run over n observations reports n flags. -/
theorem run_length (obs : List (ℕ × Position)) :
    ∀ d : LockDetector, (run d obs).length = obs.length := by
  induction obs with
  | nil => intro d; rfl
  | cons o rest ih =>
    intro d
    rw [run]
    simpa using ih _

end LockDetector

/-- C2: in any sequence of checkLock calls on one detector, once some call
reports locked = true every later call also reports locked = true, whatever
positions follow; a locked detector is never unlocked by checkLock, and only
reset clears the flag. -/
theorem claim_C2_checkLock_sticky :
    (∀ (d : LockDetector) (now : ℕ) (p : Position), d.locked = true →
      (d.checkLock now p).1.locked = true ∧ (d.checkLock now p).2.locked = true) ∧
    (∀ (d : LockDetector) (obs : List (ℕ × Position)) (i j : ℕ),
      i < j → j < obs.length →
      (LockDetector.run d obs)[i]? = some true →
      (LockDetector.run d obs)[j]? = some true) ∧
    (∀ d : LockDetector, (LockDetector.reset d).locked = false) := by
  refine ⟨fun d now p h => ?_, fun d obs => ?_, fun d => rfl⟩
  · have h2 := LockDetector.checkLock_locked_of_locked d now p h
    exact ⟨by rw [LockDetector.checkLock_fst_locked]; exact h2, h2⟩
  · induction obs generalizing d with
    | nil => intro i j _ hj _; simp at hj
    | cons o rest ih =>
      intro i j hij hj hi
      rw [LockDetector.run] at hi ⊢
      match i, j with
      | 0, j + 1 =>
        simp only [List.getElem?_cons_zero, Option.some.injEq] at hi
        simp only [List.getElem?_cons_succ]
        have hlocked : ((d.checkLock o.1 o.2).2).locked = true := by
          rw [← LockDetector.checkLock_fst_locked]; exact hi
        have hlen : j < (LockDetector.run (d.checkLock o.1 o.2).2 rest).length := by
          rw [LockDetector.run_length]
          simpa using hj
        rw [List.getElem?_eq_getElem hlen]
        have hmem := List.getElem_mem hlen
        exact congrArg some
          (LockDetector.run_all_true_of_locked rest _ hlocked _ hmem)
      | i + 1, j + 1 =>
        simp only [List.getElem?_cons_succ] at hi ⊢
        exact ih _ i j (by omega) (by simpa using hj) hi

/-- Witness for C2: a detector that locks on the dual-lock position
{20, 9, 20, 9} at call 0 still reports locked on call 1, fed the empty
position whose analysis is not a dual lock. -/
theorem claim_C2_checkLock_sticky_witness :
    (LockDetector.run LockDetector.init
      [(0, ⟨20, 9, 20, 9⟩), (1, ⟨0, 0, 0, 0⟩)])[1]? = some true :=
  claim_C2_checkLock_sticky.2.1 LockDetector.init
    [(0, ⟨20, 9, 20, 9⟩), (1, ⟨0, 0, 0, 0⟩)] 0 1 (by norm_num) (by norm_num)
    (by norm_num [LockDetector.run, LockDetector.checkLock, LockDetector.init,
          LockDetector.analyzePosition, LockDetector.calculatePayoff])

/-- The sum of a negated list is the negated sum. -/
theorem list_sum_map_neg (l : List ℚ) : (l.map (fun r => -r)).sum = -l.sum := by
  induction l with
  | nil => simp
  | cons a t ih => simp [ih]; ring

/-- Triangle inequality for list sums over the rationals. -/
theorem list_abs_sum_le (l : List ℚ) : |l.sum| ≤ (l.map (fun r => |r|)).sum := by
  induction l with
  | nil => simp
  | cons a t ih =>
    simp only [List.sum_cons, List.map_cons]
    exact (abs_add a t.sum).trans (by linarith)

/-- The sum of the absolute values of a list is non-negative. -/
theorem list_abs_sum_nonneg (l : List ℚ) : 0 ≤ (l.map (fun r => |r|)).sum :=
  List.sum_nonneg (by
    intro x hx
    obtain ⟨r, _, rfl⟩ := List.mem_map.mp hx
    exact abs_nonneg r)

/-- C9: trendiness is |sum of returns| over the sum of absolute returns,
always lies in [0,1], is 0 on the empty series and on any series with zero
absolute sum, and is 1 on every non-empty strictly one-signed series. -/
theorem claim_C9_calculateTrendiness :
    (∀ returns : List ℚ,
      0 ≤ ScoreCalculator.calculateTrendiness returns ∧
      ScoreCalculator.calculateTrendiness returns ≤ 1) ∧
    ScoreCalculator.calculateTrendiness [] = 0 ∧
    (∀ returns : List ℚ, (returns.map (fun r => |r|)).sum = 0 →
      ScoreCalculator.calculateTrendiness returns = 0) ∧
    (∀ returns : List ℚ, returns ≠ [] → (returns.map (fun r => |r|)).sum ≠ 0 →
      ScoreCalculator.calculateTrendiness returns
        = |returns.sum| / (returns.map (fun r => |r|)).sum) ∧
    (∀ returns : List ℚ, returns ≠ [] →
      ((∀ r ∈ returns, 0 < r) ∨ (∀ r ∈ returns, r < 0)) →
      ScoreCalculator.calculateTrendiness returns = 1) := by
  refine ⟨fun returns => ?_, rfl, fun returns h => ?_, fun returns hne hz => ?_,
    fun returns hne hsign => ?_⟩
  · by_cases he : returns = []
    · subst he
      simp [ScoreCalculator.calculateTrendiness]
    · rw [ScoreCalculator.calculateTrendiness, if_neg he]
      dsimp only
      by_cases hz : (returns.map (fun r => |r|)).sum = 0
      · rw [if_pos hz]
        norm_num
      · rw [if_neg hz]
        have hnn := list_abs_sum_nonneg returns
        have hpos : 0 < (returns.map (fun r => |r|)).sum := lt_of_le_of_ne hnn (Ne.symm hz)
        exact ⟨div_nonneg (abs_nonneg _) hnn, (div_le_one hpos).mpr (list_abs_sum_le returns)⟩
  · rw [ScoreCalculator.calculateTrendiness]
    split
    · rfl
    · dsimp only
      rw [if_pos h]
  · rw [ScoreCalculator.calculateTrendiness, if_neg hne]
    dsimp only
    rw [if_neg hz]
  · rw [ScoreCalculator.calculateTrendiness, if_neg hne]
    dsimp only
    rcases hsign with hp | hn
    · have hmap : returns.map (fun r => |r|) = returns := by
        rw [List.map_congr_left (fun a ha => abs_of_pos (hp a ha))]
        exact List.map_id returns
      have hpos : 0 < returns.sum := List.sum_pos returns hp hne
      rw [hmap, if_neg (ne_of_gt hpos), abs_of_pos hpos, div_self (ne_of_gt hpos)]
    · have hmap : returns.map (fun r => |r|) = returns.map (fun r => -r) :=
        List.map_congr_left (fun a ha => abs_of_neg (hn a ha))
      have hneg : returns.sum < 0 := by
        have hp : 0 < (returns.map (fun r => -r)).sum := by
          refine List.sum_pos _ (fun x hx => ?_) (by simpa using hne)
          obtain ⟨r, hr, rfl⟩ := List.mem_map.mp hx
          exact neg_pos.mpr (hn r hr)
        rw [list_sum_map_neg] at hp
        linarith
      rw [hmap, list_sum_map_neg, if_neg (by simpa using ne_of_lt hneg), abs_of_neg hneg,
        div_self (by simpa using ne_of_lt hneg)]

/-- Witness for C9: the strictly positive series [1, 2] has trendiness 1 and
the all-zero series [0] has trendiness 0. -/
theorem claim_C9_calculateTrendiness_witness :
    ScoreCalculator.calculateTrendiness [(1 : ℚ), 2] = 1 ∧
    ScoreCalculator.calculateTrendiness [(0 : ℚ)] = 0 :=
  ⟨claim_C9_calculateTrendiness.2.2.2.2 [1, 2] (by simp)
      (Or.inl (by intro r hr; rcases List.mem_cons.mp hr with rfl | hr <;> simp_all)),
   claim_C9_calculateTrendiness.2.2.1 [0] (by simp)⟩

/-- C8: with fewer than 3 samples the stats default to mean 1/2, variance 1/4
(std 1/2), trend 0 and the regime is CHOPPY; with at least 3 samples the
regime is WAKING, FADING, STEADY or CHOPPY exactly by how the variance
(std squared) and the trend (mean of the second half minus mean of the first
half, split at the floored midpoint) compare with the thresholds. -/
theorem claim_C8_regime :
    (∀ scores : List ℚ, scores.length < 3 →
      RegimeTracker.calculateStats scores = ⟨1/2, 1/4, 0⟩ ∧
      RegimeTracker.updateRegime scores = Regime.CHOPPY) ∧
    (∀ scores : List ℚ, 3 ≤ scores.length →
      (RegimeTracker.calculateStats scores).trend
          = (scores.drop (scores.length / 2)).sum
              / ((scores.drop (scores.length / 2)).length : ℚ)
            - (scores.take (scores.length / 2)).sum
              / ((scores.take (scores.length / 2)).length : ℚ) ∧
      (RegimeTracker.updateRegime scores = Regime.WAKING ↔
        (RegimeTracker.calculateStats scores).variance < RegimeTracker.STEADY_THRESHOLD ^ 2 ∧
        (RegimeTracker.calculateStats scores).trend > 5/100) ∧
      (RegimeTracker.updateRegime scores = Regime.FADING ↔
        (RegimeTracker.calculateStats scores).variance < RegimeTracker.STEADY_THRESHOLD ^ 2 ∧
        (RegimeTracker.calculateStats scores).trend < -(5/100)) ∧
      (RegimeTracker.updateRegime scores = Regime.STEADY ↔
        (RegimeTracker.calculateStats scores).variance < RegimeTracker.STEADY_THRESHOLD ^ 2 ∧
        -(5/100) ≤ (RegimeTracker.calculateStats scores).trend ∧
        (RegimeTracker.calculateStats scores).trend ≤ 5/100) ∧
      (RegimeTracker.updateRegime scores = Regime.CHOPPY ↔
        RegimeTracker.STEADY_THRESHOLD ^ 2 ≤ (RegimeTracker.calculateStats scores).variance)) := by
  constructor
  · intro scores h
    constructor
    · rw [RegimeTracker.calculateStats, if_pos h]
    · simp only [RegimeTracker.updateRegime, RegimeTracker.calculateStats, if_pos h]
      norm_num [RegimeTracker.STEADY_THRESHOLD]
  · intro scores h
    have hlt : ¬scores.length < 3 := not_lt.mpr h
    constructor
    · rw [RegimeTracker.calculateStats, if_neg hlt]
    · simp only [RegimeTracker.updateRegime]
      split_ifs with h1 h2 h3
      · exact ⟨iff_of_true rfl ⟨h1, h2⟩,
          iff_of_false (by simp) (by rintro ⟨_, hc⟩; linarith),
          iff_of_false (by simp) (by rintro ⟨_, _, hc⟩; linarith),
          iff_of_false (by simp) (by intro hc; linarith)⟩
      · exact ⟨iff_of_false (by simp) (by rintro ⟨_, hc⟩; linarith),
          iff_of_true rfl ⟨h1, h3⟩,
          iff_of_false (by simp) (by rintro ⟨_, hc, _⟩; linarith),
          iff_of_false (by simp) (by intro hc; linarith)⟩
      · exact ⟨iff_of_false (by simp) (by rintro ⟨_, hc⟩; linarith),
          iff_of_false (by simp) (by rintro ⟨_, hc⟩; linarith),
          iff_of_true rfl ⟨h1, by linarith, by linarith⟩,
          iff_of_false (by simp) (by intro hc; linarith)⟩
      · have h1' := not_lt.mp h1
        exact ⟨iff_of_false (by simp) (by rintro ⟨hc, _⟩; linarith),
          iff_of_false (by simp) (by rintro ⟨hc, _⟩; linarith),
          iff_of_false (by simp) (by rintro ⟨hc, _⟩; linarith),
          iff_of_true rfl h1'⟩

/-- Witness for C8: the empty history classifies as CHOPPY through the
default stats, and the length-3 history [0, 0, 1] classifies as CHOPPY
through its variance 2/9 at or above the squared threshold. -/
theorem claim_C8_regime_witness :
    RegimeTracker.updateRegime [] = Regime.CHOPPY ∧
    RegimeTracker.updateRegime [0, 0, 1] = Regime.CHOPPY := by
  refine ⟨(claim_C8_regime.1 [] (by norm_num)).2, ?_⟩
  have h := claim_C8_regime.2 [0, 0, 1] (by norm_num)
  exact h.2.2.2.2.mpr
    (by norm_num [RegimeTracker.calculateStats, RegimeTracker.STEADY_THRESHOLD])

/-- C10: with no samples surviving the rolling window on the YES side (a
fresh calculator in particular), getAverage is null, getRollingOBI coalesces
it to 0, and isBlocking is false against the default -0.30 threshold. -/
theorem claim_C10_obi_no_samples :
    (∀ (c : OBICalculator) (now : ℕ),
      (c.obiYes.cleanup now).samples = [] →
      c.obiYes.getAverage now = none ∧
      c.getRollingOBI now ObiSide.YES = 0 ∧
      c.isBlocking now ObiSide.YES (-(30/100)) = false) ∧
    (∀ windowMs topN now : ℕ,
      (OBICalculator.mk0 windowMs topN).getRollingOBI now ObiSide.YES = 0 ∧
      (OBICalculator.mk0 windowMs topN).isBlocking now ObiSide.YES (-(30/100)) = false) := by
  have key : ∀ (c : OBICalculator) (now : ℕ),
      (c.obiYes.cleanup now).samples = [] →
      c.obiYes.getAverage now = none ∧
      c.getRollingOBI now ObiSide.YES = 0 ∧
      c.isBlocking now ObiSide.YES (-(30/100)) = false := by
    intro c now h
    have hav : c.obiYes.getAverage now = none := by
      rw [RollingAverage.getAverage]
      simp [h]
    have hobi : c.getRollingOBI now ObiSide.YES = 0 := by
      rw [OBICalculator.getRollingOBI, hav]
      rfl
    refine ⟨hav, hobi, ?_⟩
    rw [OBICalculator.isBlocking, hobi]
    norm_num
  refine ⟨key, fun windowMs topN now => ?_⟩
  have h := key (OBICalculator.mk0 windowMs topN) now (by
    simp [OBICalculator.mk0, RollingAverage.mk0, RollingAverage.cleanup])
  exact ⟨h.2.1, h.2.2⟩

/-- Witness for C10: a fresh 90-second calculator at time 0 has a null YES
average, a zero rolling OBI, and a non-blocking OBI gate. -/
theorem claim_C10_obi_no_samples_witness :
    (OBICalculator.mk0 90000 10).obiYes.getAverage 0 = none ∧
    (OBICalculator.mk0 90000 10).getRollingOBI 0 ObiSide.YES = 0 ∧
    (OBICalculator.mk0 90000 10).isBlocking 0 ObiSide.YES (-(30/100)) = false :=
  claim_C10_obi_no_samples.1 (OBICalculator.mk0 90000 10) 0 rfl

/-- C4: with an established leader and no pending candidate, a single
opposite observation never confirms a flip while a second consecutive
observation with the same opposite leader confirms exactly one flip and
increments totalFlips by exactly 1; an observation matching the current
leader clears the pending candidate. -/
theorem claim_C4_leader_flip_debounce :
    ∀ (t : LeaderTracker) (L : Side), t.currentLeader = some L →
      (∀ (now : ℕ) (py pn : ℚ), t.pendingFlip = none →
        LeaderTracker.leaderOf py pn ≠ L →
        (t.update now py pn).1.flipped = false ∧
        (t.update now py pn).2.currentLeader = some L ∧
        (t.update now py pn).2.totalFlips = t.totalFlips ∧
        (∀ (now2 : ℕ) (py2 pn2 : ℚ),
          LeaderTracker.leaderOf py2 pn2 = LeaderTracker.leaderOf py pn →
          (((t.update now py pn).2.update now2 py2 pn2).1.flipped = true ∧
           ((t.update now py pn).2.update now2 py2 pn2).2.currentLeader
              = some (LeaderTracker.leaderOf py pn) ∧
           ((t.update now py pn).2.update now2 py2 pn2).2.totalFlips
              = t.totalFlips + 1))) ∧
      (∀ (now : ℕ) (py pn : ℚ), LeaderTracker.leaderOf py pn = L →
        (t.update now py pn).2.pendingFlip = none ∧
        (t.update now py pn).2.pendingFlipCount = 0 ∧
        (t.update now py pn).1.flipped = false ∧
        (t.update now py pn).2.currentLeader = some L) := by
  intro t L hL
  constructor
  · intro now py pn hpend hne
    have h1 : (t.update now py pn).2
        = { t with
            leaderHistory := t.leaderHistory.add
              (if LeaderTracker.leaderOf py pn = Side.YES then 1 else -1) now
            pendingFlip := some (LeaderTracker.leaderOf py pn)
            pendingFlipCount := 1 } := by
      rw [LeaderTracker.update]
      simp only [hL, hpend]
      rw [if_pos hne, if_neg (by simp)]
    have hflip1 : (t.update now py pn).1.flipped = false := by
      rw [LeaderTracker.update]
      simp only [hL, hpend]
      rw [if_pos hne, if_neg (by simp)]
    refine ⟨hflip1, by rw [h1]; exact hL, by rw [h1], ?_⟩
    intro now2 py2 pn2 heq
    rw [h1, LeaderTracker.update]
    simp only [heq, hL]
    rw [if_pos hne]
    simp
  · intro now py pn heq
    rw [LeaderTracker.update]
    simp only [hL]
    rw [if_neg (by simp [heq])]
    exact ⟨rfl, rfl, rfl, by simp [heq, ← hL]⟩

/-- Witness for C4: a tracker with leader YES and no pending candidate sees
two consecutive NO-leading prices: the first tick does not flip, the second
confirms exactly one flip to NO. -/
theorem claim_C4_leader_flip_debounce_witness :
    (({ LeaderTracker.mk0 90000 with
        currentLeader := some Side.YES }).update 0 (2/5) (3/5)).1.flipped = false ∧
    ((({ LeaderTracker.mk0 90000 with
        currentLeader := some Side.YES }).update 0 (2/5) (3/5)).2.update 1
          (2/5) (3/5)).1.flipped = true ∧
    ((({ LeaderTracker.mk0 90000 with
        currentLeader := some Side.YES }).update 0 (2/5) (3/5)).2.update 1
          (2/5) (3/5)).2.totalFlips
      = ({ LeaderTracker.mk0 90000 with
            currentLeader := some Side.YES } : LeaderTracker).totalFlips + 1 := by
  have h := (claim_C4_leader_flip_debounce
    { LeaderTracker.mk0 90000 with currentLeader := some Side.YES } Side.YES rfl).1
    0 (2/5) (3/5) rfl (by rw [LeaderTracker.leaderOf, if_neg (by norm_num)]; simp)
  exact ⟨h.1, (h.2.2.2 1 (2/5) (3/5) rfl).1, (h.2.2.2 1 (2/5) (3/5) rfl).2.2⟩

/-- Filtering the failing entries and keeping name and reason is exactly
membership of a failing triple among the entries. -/
theorem guard_blockers_mem (r : Guardrails.GuardResults) (n : CheckName)
    (rs : Option ReasonTag) :
    (n, rs) ∈ (r.entries.filter (fun e => !e.2.1)).map (fun e => (e.1, e.2.2)) ↔
      (n, false, rs) ∈ r.entries := by
  simp only [List.mem_map, List.mem_filter, Bool.not_eq_true']
  constructor
  · rintro ⟨⟨n1, b1, r1⟩, ⟨hmem, hb⟩, heq⟩
    simp only [Prod.mk.injEq] at heq
    obtain ⟨rfl, rfl⟩ := heq
    subst hb
    exact hmem
  · intro h
    exact ⟨(n, false, rs), ⟨h, rfl⟩, rfl⟩

/-- C3: checkAll allows entry iff all seven sub-checks pass; the blockers
list holds exactly the name and reason of every failing sub-check; when
allowed, the mode is RECOVERY exactly when the flip check flagged RECOVERY
and ENTRY_ALLOWED otherwise; with the default config, all checks passing
and flip mode NORMAL give allowed and ENTRY_ALLOWED, while a rolling OBI of
-0.31 against the -0.30 threshold blocks with an OBI-named blocker. -/
theorem claim_C3_checkAll :
    (∀ (cfg : GuardConfig) (inp : Guardrails.GuardInputs),
      ((Guardrails.checkAll cfg inp).allowed = true ↔
        (Guardrails.checkAll cfg inp).results.foreman.passed = true ∧
        (Guardrails.checkAll cfg inp).results.rhr.passed = true ∧
        (Guardrails.checkAll cfg inp).results.obi.passed = true ∧
        (Guardrails.checkAll cfg inp).results.flips.passed = true ∧
        (Guardrails.checkAll cfg inp).results.stability.passed = true ∧
        (Guardrails.checkAll cfg inp).results.spread.passed = true ∧
        (Guardrails.checkAll cfg inp).results.pairCost.passed = true) ∧
      (∀ (n : CheckName) (rs : Option ReasonTag),
        (n, rs) ∈ (Guardrails.checkAll cfg inp).blockers ↔
          (n, false, rs) ∈ (Guardrails.checkAll cfg inp).results.entries) ∧
      ((Guardrails.checkAll cfg inp).allowed = true →
        (Guardrails.checkAll cfg inp).mode
          = (if (Guardrails.checkAll cfg inp).results.flips.mode = FlipMode.RECOVERY
             then GuardMode.RECOVERY else GuardMode.ENTRY_ALLOWED)) ∧
      ((Guardrails.checkAll cfg inp).allowed = false →
        (Guardrails.checkAll cfg inp).mode = GuardMode.BLOCKED)) ∧
    ((Guardrails.checkAll Guardrails.defaultConfig
        ⟨450, 900, 0, 0, 0, 7/10, 6/10, 4/10, ForemanOrder.START, none⟩).allowed = true ∧
     (Guardrails.checkAll Guardrails.defaultConfig
        ⟨450, 900, 0, 0, 0, 7/10, 6/10, 4/10, ForemanOrder.START, none⟩).results.flips.mode
        = FlipMode.NORMAL ∧
     (Guardrails.checkAll Guardrails.defaultConfig
        ⟨450, 900, 0, 0, 0, 7/10, 6/10, 4/10, ForemanOrder.START, none⟩).mode
        = GuardMode.ENTRY_ALLOWED) ∧
    ((Guardrails.checkAll Guardrails.defaultConfig
        ⟨450, 900, -(31/100), 0, 0, 7/10, 6/10, 4/10, ForemanOrder.START, none⟩).allowed
        = false ∧
     (Guardrails.checkAll Guardrails.defaultConfig
        ⟨450, 900, -(31/100), 0, 0, 7/10, 6/10, 4/10, ForemanOrder.START, none⟩).blockers
        = [(CheckName.OBI, some ReasonTag.obiBlocking)]) := by
  refine ⟨fun cfg inp => ⟨?_, fun n rs => ?_, ?_, ?_⟩, ?_, ?_⟩
  · simp [Guardrails.checkAll, Guardrails.GuardResults.entries, List.all_cons, and_assoc]
  · exact guard_blockers_mem _ n rs
  · intro h
    simp only [Guardrails.checkAll] at h ⊢
    rw [h]
    simp
  · intro h
    simp only [Guardrails.checkAll] at h ⊢
    rw [h]
    simp
  · norm_num [Guardrails.checkAll, Guardrails.defaultConfig, Guardrails.GuardResults.entries,
      Guardrails.checkRHR, Guardrails.checkOBI, Guardrails.checkFlips,
      Guardrails.checkStability, Guardrails.checkSpread, Guardrails.checkPairCost,
      abs_of_pos]
    decide
  · norm_num [Guardrails.checkAll, Guardrails.defaultConfig, Guardrails.GuardResults.entries,
      Guardrails.checkRHR, Guardrails.checkOBI, Guardrails.checkFlips,
      Guardrails.checkStability, Guardrails.checkSpread, Guardrails.checkPairCost,
      abs_of_pos]

/-- Witness for C3: at the all-passing default-config input, the mode of
checkAll agrees with the flip-mode selection rule. -/
theorem claim_C3_checkAll_witness :
    (Guardrails.checkAll Guardrails.defaultConfig
      ⟨450, 900, 0, 0, 0, 7/10, 6/10, 4/10, ForemanOrder.START, none⟩).mode
      = (if (Guardrails.checkAll Guardrails.defaultConfig
            ⟨450, 900, 0, 0, 0, 7/10, 6/10, 4/10, ForemanOrder.START, none⟩).results.flips.mode
              = FlipMode.RECOVERY
         then GuardMode.RECOVERY else GuardMode.ENTRY_ALLOWED) :=
  (claim_C3_checkAll.1 Guardrails.defaultConfig
    ⟨450, 900, 0, 0, 0, 7/10, 6/10, 4/10, ForemanOrder.START, none⟩).2.2.1
    claim_C3_checkAll.2.1.1

namespace AdvancedWorker

/-- NoReset is reflexive. -/
theorem noReset_refl (s : AssetState) : NoReset s s := by
  simp [NoReset]

/-- NoReset is transitive. -/
theorem noReset_trans {s t u : AssetState} (h1 : NoReset s t) (h2 : NoReset t u) :
    NoReset s u := by
  obtain ⟨a1, a2, a3, a4, a5, a6, a7, a8⟩ := h1
  obtain ⟨b1, b2, b3, b4, b5, b6, b7, b8⟩ := h2
  exact ⟨a1.trans b1, a2.trans b2, a3.trans b3, a4.trans b4,
    fun h => b5 (a5 h), fun h => b6 (a6 h), fun h => b7 (a7 h), a8.trans b8⟩

/-- A leader-tracker update never decreases totalFlips. -/
theorem leaderTracker_update_totalFlips_le (t : LeaderTracker) (now : ℕ) (py pn : ℚ) :
    t.totalFlips ≤ (t.update now py pn).2.totalFlips := by
  simp only [LeaderTracker.update]
  cases hc : t.currentLeader
  · simp
  · simp only []
    split_ifs <;> simp

/-- handleArmed only moves the state field. -/
theorem handleArmed_noReset (s : AssetState) (e : ℚ) (li : LeaderUpdate) (now : ℕ) :
    NoReset s (handleArmed s e li now) := by
  rw [handleArmed]
  split_ifs <;> simp [NoReset]

/-- handleEntry never clears flags and only adds to the position when the
fill price is non-negative. -/
theorem handleEntry_noReset (s : AssetState) (tokens : Option ℕ × Option ℕ)
    (caps : RiskCaps) (fill : FillResult) (hfp : 0 ≤ fill.fillPrice) :
    NoReset s (handleEntry s tokens caps fill) := by
  have hc : (0 : ℚ) ≤ fill.fillPrice * ENTRY_SIZE :=
    mul_nonneg hfp (by norm_num [ENTRY_SIZE])
  have he : (0 : ℚ) ≤ ENTRY_SIZE := by norm_num [ENTRY_SIZE]
  simp only [handleEntry]
  split
  · simp [NoReset]
  · split
    · simp [NoReset]
    · split_ifs <;>
        refine ⟨?_, ?_, ?_, ?_, ?_, ?_, ?_, ?_⟩ <;> simp <;> linarith

/-- handleLaddering only sets the done flag and the state field. -/
theorem handleLaddering_noReset (s : AssetState) : NoReset s (handleLaddering s) := by
  rw [handleLaddering]
  split_ifs <;> simp [NoReset]

/-- handleLocking only advances the sticky lock detector and the state. -/
theorem handleLocking_noReset (s : AssetState) (now : ℕ) :
    NoReset s (handleLocking s now) := by
  have hl := LockDetector.checkLock_locked_of_locked s.lockDetector now s.position
  simp only [handleLocking]
  split_ifs <;>
    exact ⟨le_refl _, le_refl _, le_refl _, le_refl _, fun h => h, fun h => h,
      fun h => hl h, le_refl _⟩

set_option maxHeartbeats 1600000 in
/-- handleRecovery never clears flags and only adds to the position when the
prices and the fill fields are non-negative. -/
theorem handleRecovery_noReset (s : AssetState) (tokens : Option ℕ × Option ℕ)
    (priceYes priceNo : ℚ) (caps : RiskCaps) (fill : FillResult)
    (hpy : 0 ≤ priceYes) (hpn : 0 ≤ priceNo)
    (hfp : 0 ≤ fill.fillPrice) (hfs : 0 ≤ fill.size) :
    NoReset s (handleRecovery s tokens priceYes priceNo caps fill) := by
  unfold handleRecovery
  cases hcr : LockDetector.calculateRecoveryShares
      (if (LockDetector.analyzePosition s.position).recoverySide = Side.YES
        then (LockDetector.analyzePosition s.position).yesDeficit
        else (LockDetector.analyzePosition s.position).noDeficit)
      (if (LockDetector.analyzePosition s.position).recoverySide = Side.YES
        then priceYes else priceNo) 2 with
  | infinite =>
    simp only [hcr]
    simp [NoReset]
  | finite n =>
    simp only [hcr]
    cases hside : (LockDetector.analyzePosition s.position).recoverySide <;>
      simp only [hside, reduceIte, reduceCtorEq, if_true, if_false] <;>
      split_ifs with h1 h2 h3 h4 h5 h6 h7 h8 <;>
      first
      | (simp [NoReset]; done)
      | (have hn : (0 : ℚ) < (n : ℚ) := by exact_mod_cast h3.2.1
         have hmin : (0 : ℚ) ≤ min (n : ℚ) 10 := le_min hn.le (by norm_num)
         refine ⟨?_, ?_, ?_, ?_, ?_, ?_, ?_, ?_⟩ <;> simp <;>
           linarith [hmin, hfs, mul_nonneg hpy hmin, mul_nonneg hpy hfs,
             mul_nonneg hfp hmin, mul_nonneg hfp hfs,
             mul_nonneg hpn hmin, mul_nonneg hpn hfs])

/-- No branch of the state-machine switch performs a per-window reset. -/
theorem dispatch_noReset (s : AssetState) (tokens : Option ℕ × Option ℕ) (now : ℕ)
    (priceYes priceNo elapsedSec remainingSec : ℚ) (li : LeaderUpdate)
    (caps : RiskCaps) (fill : FillResult)
    (hpy : 0 ≤ priceYes) (hpn : 0 ≤ priceNo)
    (hfp : 0 ≤ fill.fillPrice) (hfs : 0 ≤ fill.size) :
    NoReset s (dispatch s tokens now priceYes priceNo elapsedSec remainingSec
      li caps fill) := by
  unfold dispatch
  cases hs : s.state
  · exact noReset_refl s
  · exact handleArmed_noReset s elapsedSec li now
  · exact handleEntry_noReset s tokens caps fill hfp
  · exact handleLaddering_noReset s
  · exact handleLocking_noReset s now
  · split_ifs <;> simp [NoReset]
  · exact handleRecovery_noReset s tokens priceYes priceNo caps fill hpy hpn hfp hfs
  · exact noReset_refl s

/-- detectNewWindow on an unchanged window id is the identity. -/
theorem detectNewWindow_same (s : AssetState) (windowId : ℕ)
    (tokens : Option ℕ × Option ℕ) (h : some windowId = s.lastWindowId) :
    detectNewWindow s windowId tokens = s := by
  rw [detectNewWindow, if_neg (not_not_intro h)]

/-- A same-window stepAsset tick never performs the per-window reset. -/
theorem stepAsset_noReset (s : AssetState) (windowId : ℕ)
    (tokens : Option ℕ × Option ℕ) (now : ℕ)
    (priceYes priceNo elapsedSec remainingSec : ℚ)
    (obiUpdated : OBICalculator) (caps : RiskCaps) (fill : FillResult)
    (hwin : some windowId = s.lastWindowId)
    (hpy : 0 ≤ priceYes) (hpn : 0 ≤ priceNo)
    (hfp : 0 ≤ fill.fillPrice) (hfs : 0 ≤ fill.size) :
    NoReset s (stepAsset s windowId tokens now priceYes priceNo elapsedSec
      remainingSec obiUpdated caps fill) := by
  unfold stepAsset
  rw [detectNewWindow_same s windowId tokens hwin]
  refine noReset_trans (t := { s with
      leaderTracker := (s.leaderTracker.update now priceYes priceNo).2
      obiCalculator := obiUpdated }) ?_ ?_
  · exact ⟨le_refl _, le_refl _, le_refl _, le_refl _, fun h => h, fun h => h,
      fun h => h, leaderTracker_update_totalFlips_le s.leaderTracker now priceYes priceNo⟩
  · exact dispatch_noReset _ tokens now priceYes priceNo elapsedSec remainingSec
      _ caps fill hpy hpn hfp hfs

end AdvancedWorker

/-- C6: canPlaceOrder returns false exactly when the projected total shares
exceed the share cap or the projected total cost exceeds the notional cap;
in particular a size-10 order at 45 current total shares is rejected against
a 50-share cap. -/
theorem claim_C6_canPlaceOrder :
    (∀ (s : AdvancedWorker.AssetState) (price size : ℚ) (caps : RiskCaps),
      AdvancedWorker.canPlaceOrder s price size caps = false ↔
        s.position.yesShares + s.position.noShares + size > caps.maxShares ∨
        s.position.yesCost + s.position.noCost + price * size > caps.maxNotional) ∧
    (∀ (s : AdvancedWorker.AssetState) (price : ℚ) (caps : RiskCaps),
      s.position.yesShares + s.position.noShares = 45 → caps.maxShares = 50 →
      AdvancedWorker.canPlaceOrder s price 10 caps = false) := by
  have main : ∀ (s : AdvancedWorker.AssetState) (price size : ℚ) (caps : RiskCaps),
      AdvancedWorker.canPlaceOrder s price size caps = false ↔
        s.position.yesShares + s.position.noShares + size > caps.maxShares ∨
        s.position.yesCost + s.position.noCost + price * size > caps.maxNotional := by
    intro s price size caps
    unfold AdvancedWorker.canPlaceOrder
    dsimp only
    split_ifs with h1 h2 <;> simp_all
  refine ⟨main, fun s price caps h45 h50 => (main s price 10 caps).mpr (Or.inl ?_)⟩
  rw [h45, h50]
  norm_num

/-- Witness for C6: a position of 25 YES and 20 NO shares rejects a size-10
order against a 50-share cap. -/
theorem claim_C6_canPlaceOrder_witness :
    AdvancedWorker.canPlaceOrder
      { AdvancedWorker.initAssetState with position := ⟨25, 10, 20, 8⟩ }
      (1/2) 10 ⟨50, 100, 20⟩ = false :=
  claim_C6_canPlaceOrder.2
    { AdvancedWorker.initAssetState with position := ⟨25, 10, 20, 8⟩ }
    (1/2) ⟨50, 100, 20⟩ (by norm_num) rfl

/-- C5: a tick whose window id differs from the last seen one resets all
per-window mutable state before any trading logic runs (state ARMED, zero
position, cleared done flags, cleared flip counters and pending candidate,
unlocked detector); a same-window tick leaves the window-check branch as the
identity; and no same-window step with well-formed oracle data undoes any of
those fields, so the new-window branch is the only total reset. -/
theorem claim_C5_new_window_reset :
    (∀ (s : AdvancedWorker.AssetState) (windowId : ℕ) (tokens : Option ℕ × Option ℕ),
      some windowId ≠ s.lastWindowId →
      (AdvancedWorker.detectNewWindow s windowId tokens).state = WorkerState.ARMED ∧
      (AdvancedWorker.detectNewWindow s windowId tokens).position = ⟨0, 0, 0, 0⟩ ∧
      (AdvancedWorker.detectNewWindow s windowId tokens).entryDone = false ∧
      (AdvancedWorker.detectNewWindow s windowId tokens).ladderDone = false ∧
      (AdvancedWorker.detectNewWindow s windowId tokens).leaderTracker.totalFlips = 0 ∧
      (AdvancedWorker.detectNewWindow s windowId
        tokens).leaderTracker.flipCounter.events = [] ∧
      (AdvancedWorker.detectNewWindow s windowId tokens).leaderTracker.pendingFlip
        = none ∧
      (AdvancedWorker.detectNewWindow s windowId tokens).leaderTracker.pendingFlipCount
        = 0 ∧
      (AdvancedWorker.detectNewWindow s windowId tokens).lockDetector.locked = false ∧
      (AdvancedWorker.detectNewWindow s windowId tokens).lastWindowId = some windowId) ∧
    (∀ (s : AdvancedWorker.AssetState) (windowId : ℕ) (tokens : Option ℕ × Option ℕ),
      some windowId = s.lastWindowId →
      AdvancedWorker.detectNewWindow s windowId tokens = s) ∧
    (∀ (s : AdvancedWorker.AssetState) (windowId : ℕ) (tokens : Option ℕ × Option ℕ)
      (now : ℕ) (priceYes priceNo elapsedSec remainingSec : ℚ)
      (obiUpdated : OBICalculator) (caps : RiskCaps) (fill : FillResult),
      some windowId = s.lastWindowId → 0 ≤ priceYes → 0 ≤ priceNo →
      0 ≤ fill.fillPrice → 0 ≤ fill.size →
      AdvancedWorker.NoReset s (AdvancedWorker.stepAsset s windowId tokens now
        priceYes priceNo elapsedSec remainingSec obiUpdated caps fill)) := by
  refine ⟨fun s windowId tokens h => ?_, AdvancedWorker.detectNewWindow_same,
    fun s windowId tokens now py pn e r o caps fill hw hpy hpn hfp hfs =>
      AdvancedWorker.stepAsset_noReset s windowId tokens now py pn e r o caps fill
        hw hpy hpn hfp hfs⟩
  rw [AdvancedWorker.detectNewWindow, if_pos h]
  exact ⟨rfl, rfl, rfl, rfl, rfl, rfl, rfl, rfl, rfl, rfl⟩

/-- Witness for C5: a fresh asset state sees window 1 and resets to ARMED
with the zero position; the same state with window 1 already seen is left
alone by the window check, and a full step on it performs no reset. -/
theorem claim_C5_new_window_reset_witness :
    ((AdvancedWorker.detectNewWindow AdvancedWorker.initAssetState 1 (none, none)).state
        = WorkerState.ARMED ∧
      (AdvancedWorker.detectNewWindow AdvancedWorker.initAssetState 1
        (none, none)).position = ⟨0, 0, 0, 0⟩ ∧
      (AdvancedWorker.detectNewWindow AdvancedWorker.initAssetState 1
        (none, none)).entryDone = false ∧
      (AdvancedWorker.detectNewWindow AdvancedWorker.initAssetState 1
        (none, none)).ladderDone = false ∧
      (AdvancedWorker.detectNewWindow AdvancedWorker.initAssetState 1
        (none, none)).leaderTracker.totalFlips = 0 ∧
      (AdvancedWorker.detectNewWindow AdvancedWorker.initAssetState 1
        (none, none)).leaderTracker.flipCounter.events = [] ∧
      (AdvancedWorker.detectNewWindow AdvancedWorker.initAssetState 1
        (none, none)).leaderTracker.pendingFlip = none ∧
      (AdvancedWorker.detectNewWindow AdvancedWorker.initAssetState 1
        (none, none)).leaderTracker.pendingFlipCount = 0 ∧
      (AdvancedWorker.detectNewWindow AdvancedWorker.initAssetState 1
        (none, none)).lockDetector.locked = false ∧
      (AdvancedWorker.detectNewWindow AdvancedWorker.initAssetState 1
        (none, none)).lastWindowId = some 1) ∧
    AdvancedWorker.detectNewWindow
      { AdvancedWorker.initAssetState with lastWindowId := some 1 } 1 (none, none)
      = { AdvancedWorker.initAssetState with lastWindowId := some 1 } ∧
    AdvancedWorker.NoReset
      { AdvancedWorker.initAssetState with lastWindowId := some 1 }
      (AdvancedWorker.stepAsset
        { AdvancedWorker.initAssetState with lastWindowId := some 1 }
        1 (none, none) 0 (1/2) (1/2) 100 800 (OBICalculator.mk0 90000 10)
        ⟨50, 25, 20⟩ ⟨OrderStatus.FILLED, 1/2, 10⟩) :=
  ⟨claim_C5_new_window_reset.1 AdvancedWorker.initAssetState 1 (none, none)
      (by simp [AdvancedWorker.initAssetState]),
   claim_C5_new_window_reset.2.1
      { AdvancedWorker.initAssetState with lastWindowId := some 1 } 1 (none, none) rfl,
   claim_C5_new_window_reset.2.2
      { AdvancedWorker.initAssetState with lastWindowId := some 1 } 1 (none, none)
      0 (1/2) (1/2) 100 800 (OBICalculator.mk0 90000 10) ⟨50, 25, 20⟩
      ⟨OrderStatus.FILLED, 1/2, 10⟩ rfl (by norm_num) (by norm_num) (by norm_num)
      (by norm_num)⟩

end PolymarketTrade
